import Mathlib

/-!
Shallow embedding of the Minilog logger (src/src/lib.rs) together with the
relevant parts of the `log` crate it builds on (severity enums, the global
logger/max-level state, and the `log!` macro gate).

Strings are modelled as `List Char`; Rust's `str::replacen(pat, rep, 1)` is
modelled by `replacen1` (replace the leftmost occurrence only).  Writes to
stdout / stderr / a file are modelled as `Emission` events; each write event
carries the exact text written, including the trailing newline appended by
`println!` / `eprintln!` / `writeln!`.
-/

/-- Strings as lists of characters. -/
abbrev Str := List Char

/-- Turn a Lean string literal into the `Str` model. -/
def strL (s : String) : Str := s.data

/-- Severity of a log record: the `log` crate's `Level` enum, whose
discriminants are `Error = 1, Warn, Info, Debug, Trace`. -/
inductive Level
  | error
  | warn
  | info
  | debug
  | trace
deriving DecidableEq

/-- Maximum-severity filter: the `log` crate's `LevelFilter` enum, with
discriminants `Off = 0, Error, Warn, Info, Debug, Trace`. -/
inductive LevelFilter
  | off
  | error
  | warn
  | info
  | debug
  | trace
deriving DecidableEq

/-- Discriminant of `Level` (`as usize` in Rust comparisons). -/
def Level.toNat : Level → Nat
  | .error => 1
  | .warn => 2
  | .info => 3
  | .debug => 4
  | .trace => 5

/-- Discriminant of `LevelFilter` (`as usize` in Rust comparisons). -/
def LevelFilter.toNat : LevelFilter → Nat
  | .off => 0
  | .error => 1
  | .warn => 2
  | .info => 3
  | .debug => 4
  | .trace => 5

/-- The `log` crate's `Level::to_level_filter`. -/
def Level.to_level_filter : Level → LevelFilter
  | .error => .error
  | .warn => .warn
  | .info => .info
  | .debug => .debug
  | .trace => .trace

/-- The `log` crate's `LevelFilter::to_level`: `None` for `Off`. -/
def LevelFilter.to_level : LevelFilter → Option Level
  | .off => none
  | .error => some .error
  | .warn => some .warn
  | .info => some .info
  | .debug => some .debug
  | .trace => some .trace

/-- `Display` for `Level` in the `log` crate: upper-case names. -/
def levelStr : Level → Str
  | .error => strL "ERROR"
  | .warn => strL "WARN"
  | .info => strL "INFO"
  | .debug => strL "DEBUG"
  | .trace => strL "TRACE"

/-- A log record as used by `Minilog`: severity, message, and the optional
call-site metadata consulted by `Log::log` (`module_path`, `file`, `line`). -/
structure LogRecord where
  level : Level
  msg : Str
  module_path : Option Str
  file : Option Str
  line : Option Nat
deriving DecidableEq

/-- The `Minilog` struct from the source: file-or-stream descriptor and
format (template) string. -/
structure Minilog where
  logfile_name : Str
  fmt_string : Str
deriving DecidableEq

/-- The `log` crate's global state that Minilog manipulates: the installed
boxed logger (if any) and the global maximum level filter. -/
structure GlobalState where
  logger : Option Minilog
  maxLevel : LevelFilter
deriving DecidableEq

/-- `log::STATIC_MAX_LEVEL` with default crate features: `Trace`. -/
def staticMaxLevel : LevelFilter := .trace

/-- Does `pat` match at the head of `s`? -/
def headMatch (pat s : Str) : Bool := s.take pat.length = pat

/-- Leftmost-match splitter: `firstSplit pat s = some (pre, post)` when
`s = pre ++ pat ++ post` and this is the leftmost occurrence of `pat`;
`none` when `pat` does not occur in `s`. -/
def firstSplit (pat : Str) : Str → Option (Str × Str)
  | [] => if pat = [] then some ([], []) else none
  | c :: rest =>
    if headMatch pat (c :: rest) then some ([], (c :: rest).drop pat.length)
    else
      match firstSplit pat rest with
      | some (pre, post) => some (c :: pre, post)
      | none => none

/-- Occurrence test used to state properties of `replacen1`: scans `s` left
to right for a match of `pat`. -/
def containsB (pat : Str) : Str → Bool
  | [] => pat = []
  | c :: rest => headMatch pat (c :: rest) || containsB pat rest

/-- Rust's `str::replacen(pat, rep, 1)`: replace only the leftmost
occurrence of `pat` in `s` by `rep`; if `pat` does not occur, return `s`. -/
def replacen1 (s pat rep : Str) : Str :=
  match firstSplit pat s with
  | some (pre, post) => pre ++ rep ++ post
  | none => s

/-- Decimal digit character. -/
def digitChar (d : Nat) : Char := Char.ofNat (48 + d)

/-- Decimal digits of `n` (empty for 0), fuel-based so the kernel reduces it. -/
def natDigits : Nat → Nat → Str
  | 0, _ => []
  | fuel + 1, n => if n = 0 then [] else natDigits fuel (n / 10) ++ [digitChar (n % 10)]

/-- Rust `Display` for an unsigned integer: decimal, `"0"` for zero. -/
def natToStr (n : Nat) : Str := if n = 0 then strL "0" else natDigits (n + 1) n

/-- The formatting chain in `Log::log for Minilog`: five `replacen(…, 1)`
calls on the accumulating string, in the order level, msg, modpath, file,
line; missing metadata renders as `""` / `""` / `0` (`unwrap_or`). -/
def render (fmt : Str) (r : LogRecord) : Str :=
  replacen1
    (replacen1
      (replacen1
        (replacen1
          (replacen1 fmt (strL "{level}") (levelStr r.level))
          (strL "{msg}") r.msg)
        (strL "{modpath}") (r.module_path.getD []))
      (strL "{file}") (r.file.getD []))
    (strL "{line}") (natToStr (r.line.getD 0))

/-- `Log::enabled for Minilog`: `metadata.level() <= max_level()`, the
cross-enum comparison being on discriminants. -/
def Minilog.enabled (maxLvl : LevelFilter) (lvl : Level) : Bool :=
  lvl.toNat ≤ maxLvl.toNat

/-- One observable write event, carrying the exact text written (the
rendered line plus the newline the sink appends). -/
inductive Emission
  | toStdout (text : Str)
  | toStderr (text : Str)
  | toFile (path : Str) (text : Str)
deriving DecidableEq

/-- Newline character appended by `println!` / `eprintln!` / `writeln!`. -/
def newlineChar : Char := Char.ofNat 10

/-- Sink dispatch in `Log::log for Minilog`: the literal `"stdout"` goes to
standard output, `"stderr"` to standard error, anything else is a file path
opened append+create, written, and dropped before returning.  Each branch
appends one newline. -/
def sinkDispatch (self : Minilog) (log_msg : Str) : Emission :=
  if self.logfile_name = strL "stdout" then .toStdout (log_msg ++ [newlineChar])
  else if self.logfile_name = strL "stderr" then .toStderr (log_msg ++ [newlineChar])
  else .toFile self.logfile_name (log_msg ++ [newlineChar])

/-- `Log::log for Minilog`: gate on `enabled`, render, dispatch to the sink. -/
def Minilog.log (self : Minilog) (maxLvl : LevelFilter) (r : LogRecord) : List Emission :=
  if Minilog.enabled maxLvl r.level then [sinkDispatch self (render self.fmt_string r)]
  else []

/-- The `log!` macro expansion: emit through the installed logger when the
record level passes both the static and the dynamic max-level gates
(`lvl <= STATIC_MAX_LEVEL && lvl <= max_level()`); with no logger installed
the `log` crate's nop logger swallows the record. -/
def logMacro (g : GlobalState) (lvl : Level) (msg : Str)
    (mp fp : Option Str) (ln : Option Nat) : List Emission :=
  if lvl.toNat ≤ staticMaxLevel.toNat ∧ lvl.toNat ≤ g.maxLevel.toNat then
    match g.logger with
    | some l => l.log g.maxLevel ⟨lvl, msg, mp, fp, ln⟩
    | none => []
  else []

/-- `log::SetLoggerError`: returned by `set_boxed_logger` when a logger is
already installed. -/
inductive SetLoggerError
  | alreadyInitialized
deriving DecidableEq

/-- Failure of `log_or_panic`: the panic
`"{level} is too low to log"` raised when the requested level is not
enabled. -/
inductive LogFailure
  | levelTooLow (lvl : Level)
deriving DecidableEq

/-- `Minilog::init`: `set_boxed_logger(...).map(|()| set_max_level(loglevel))`.
On failure (a logger already installed) nothing is mutated; on success the
config is installed and the max level set. -/
def Minilog.init (g : GlobalState) (loglevel : LevelFilter)
    (logfile_name fmt_string : Str) : GlobalState × Except SetLoggerError Unit :=
  match g.logger with
  | some _ => (g, .error .alreadyInitialized)
  | none => ({ logger := some ⟨logfile_name, fmt_string⟩, maxLevel := loglevel }, .ok ())

/-- `Minilog::init_default`: sink `"logs.txt"`, template `"{level}: {msg}"`,
max level `Trace`. -/
def Minilog.init_default (g : GlobalState) : GlobalState × Except SetLoggerError Unit :=
  Minilog.init g .trace (strL "logs.txt") (strL "{level}: {msg}")

/-- `Minilog::set_log_level`: unconditional `set_max_level`. -/
def Minilog.set_log_level (g : GlobalState) (loglevel : LevelFilter) : GlobalState :=
  { g with maxLevel := loglevel }

/-- `Minilog::log_level`: `max_level().to_level()`. -/
def Minilog.log_level (g : GlobalState) : Option Level :=
  g.maxLevel.to_level

/-- `Minilog::log_or_panic`: panic when `loglevel > max_level()`, otherwise
emit via `log!` (the nested `format!`/`format_args!` chain reduces to the
message itself).  The panic is modelled as an `Except.error`; global state is
not mutated either way. -/
def Minilog.log_or_panic (g : GlobalState) (loglevel : Level) (msg : Str)
    (mp fp : Option Str) (ln : Option Nat) : Except LogFailure (List Emission) :=
  if g.maxLevel.toNat < loglevel.toNat then .error (.levelTooLow loglevel)
  else .ok (logMacro g loglevel msg mp fp ln)

/-- `Minilog::log_upgrade`: raise the global max level to `loglevel` when
`loglevel > max_level()`, then emit via `log!`. -/
def Minilog.log_upgrade (g : GlobalState) (loglevel : Level) (msg : Str)
    (mp fp : Option Str) (ln : Option Nat) : GlobalState × List Emission :=
  let g1 := if g.maxLevel.toNat < loglevel.toNat then
      { g with maxLevel := loglevel.to_level_filter }
    else g
  (g1, logMacro g1 loglevel msg mp fp ln)

/-- `Minilog::log_upgrade_temp`: only when `loglevel > max_level()`, save the
current max level, delegate to `log_upgrade`, then restore the saved level;
otherwise do nothing at all. -/
def Minilog.log_upgrade_temp (g : GlobalState) (loglevel : Level) (msg : Str)
    (mp fp : Option Str) (ln : Option Nat) : GlobalState × List Emission :=
  if g.maxLevel.toNat < loglevel.toNat then
    let current_level := g.maxLevel
    let r := Minilog.log_upgrade g loglevel msg mp fp ln
    ({ r.1 with maxLevel := current_level }, r.2)
  else (g, [])

lemma take_len_append (a b : Str) : (a ++ b).take a.length = a := by
  induction a with
  | nil => simp
  | cons c a ih => simp [ih]

lemma headMatch_append (pat q : Str) : headMatch pat (pat ++ q) = true := by
  simp [headMatch, take_len_append]

/-- When `firstSplit` finds a split, it is a genuine split of `s` around
`pat`, and its prefix is the shortest among all such splits (leftmost
occurrence). -/
lemma firstSplit_some_spec (pat : Str) :
    ∀ s pre post : Str, firstSplit pat s = some (pre, post) →
      s = pre ++ pat ++ post ∧ ∀ p q : Str, s = p ++ pat ++ q → pre.length ≤ p.length := by
  intro s
  induction s with
  | nil =>
    intro pre post h
    by_cases hp : pat = []
    · subst hp
      simp [firstSplit] at h
      obtain ⟨h1, h2⟩ := h
      subst h1; subst h2
      exact ⟨rfl, fun p q _ => by simp⟩
    · simp [firstSplit, hp] at h
  | cons c rest ih =>
    intro pre post h
    by_cases hm : headMatch pat (c :: rest) = true
    · rw [firstSplit, if_pos hm] at h
      have h1 : pre = ([] : Str) := by
        have := Option.some.inj h
        exact (Prod.mk.injEq _ _ _ _ ▸ this).1.symm
      have h2 : post = (c :: rest).drop pat.length := by
        have := Option.some.inj h
        exact (Prod.mk.injEq _ _ _ _ ▸ this).2.symm
      subst h1; subst h2
      have htake : (c :: rest).take pat.length = pat := by
        simpa [headMatch] using hm
      constructor
      · conv_lhs => rw [← List.take_append_drop pat.length (c :: rest)]
        rw [htake]; simp
      · intro p q _; simp
    · rw [firstSplit, if_neg hm] at h
      cases hfs : firstSplit pat rest with
      | none => rw [hfs] at h; exact absurd h (by simp)
      | some pr =>
        obtain ⟨pre', post'⟩ := pr
        rw [hfs] at h
        have h1 : pre = c :: pre' := by
          have := Option.some.inj h
          exact (Prod.mk.injEq _ _ _ _ ▸ this).1.symm
        have h2 : post = post' := by
          have := Option.some.inj h
          exact (Prod.mk.injEq _ _ _ _ ▸ this).2.symm
        subst h1; subst h2
        obtain ⟨ihs, ihmin⟩ := ih pre' post hfs
        constructor
        · simp [ihs]
        · intro p q hpq
          cases p with
          | nil =>
            exfalso
            simp only [List.nil_append] at hpq
            rw [hpq] at hm
            exact hm (headMatch_append pat q)
          | cons c2 p2 =>
            simp only [List.cons_append, List.cons.injEq] at hpq
            have := ihmin p2 q hpq.2
            simpa using Nat.succ_le_succ this

/-- `firstSplit` fails exactly when the scanning occurrence test fails. -/
lemma firstSplit_none_iff (pat : Str) :
    ∀ s : Str, firstSplit pat s = none ↔ containsB pat s = false := by
  intro s
  induction s with
  | nil =>
    by_cases hp : pat = [] <;> simp [firstSplit, containsB, hp]
  | cons c rest ih =>
    by_cases hm : headMatch pat (c :: rest) = true
    · rw [firstSplit, if_pos hm]
      simp [containsB, hm]
    · rw [firstSplit, if_neg hm]
      cases hfs : firstSplit pat rest with
      | none =>
        simp only [containsB]
        rw [hfs] at ih
        simp [Bool.or_eq_false_iff, eq_false_of_ne_true hm, ih.mp rfl]
      | some pr =>
        obtain ⟨pre', post'⟩ := pr
        simp only [containsB]
        constructor
        · intro h; exact absurd h (by simp)
        · intro h
          rw [Bool.or_eq_false_iff] at h
          rw [← ih] at *
          rw [hfs] at *
          exact absurd h.2 (by simp)

lemma Level.toNat_le_five (l : Level) : l.toNat ≤ 5 := by cases l <;> decide

lemma Level.toNat_le_staticMax (l : Level) : l.toNat ≤ staticMaxLevel.toNat := by
  cases l <;> decide

lemma Level.to_level_filter_toNat (l : Level) : l.to_level_filter.toNat = l.toNat := by
  cases l <;> rfl

/-- C1: if `level` is already enabled under the current maximum
(`level <= maximum`), `log_upgrade_temp(level, msg)` is a no-op: it emits
nothing and the global state (in particular the maximum severity) is
unchanged. -/
theorem log_upgrade_temp_noop_when_enabled (g : GlobalState) (lvl : Level)
    (msg : Str) (mp fp : Option Str) (ln : Option Nat)
    (h : lvl.toNat ≤ g.maxLevel.toNat) :
    Minilog.log_upgrade_temp g lvl msg mp fp ln = (g, []) := by
  unfold Minilog.log_upgrade_temp
  rw [if_neg (by omega)]

theorem log_upgrade_temp_noop_when_enabled_witness :
    Level.info.toNat ≤ LevelFilter.trace.toNat ∧
    Minilog.log_upgrade_temp ⟨some ⟨strL "logs.txt", strL "{level}: {msg}"⟩, .trace⟩
      .info (strL "msg") none none none
      = (⟨some ⟨strL "logs.txt", strL "{level}: {msg}"⟩, .trace⟩, []) :=
  ⟨by decide, log_upgrade_temp_noop_when_enabled
    ⟨some ⟨strL "logs.txt", strL "{level}: {msg}"⟩, .trace⟩ .info (strL "msg")
    none none none (by decide)⟩

/-- C2: if `level` is not enabled (`level > maximum`), `log_upgrade_temp`
emits exactly one rendered line for the record at that level, and the
maximum severity after the call equals its value from before the call. -/
theorem log_upgrade_temp_escalates_emits_and_restores (g : GlobalState)
    (l : Minilog) (lvl : Level) (msg : Str) (mp fp : Option Str) (ln : Option Nat)
    (hlog : g.logger = some l) (h : g.maxLevel.toNat < lvl.toNat) :
    (Minilog.log_upgrade_temp g lvl msg mp fp ln).1.maxLevel = g.maxLevel ∧
    (Minilog.log_upgrade_temp g lvl msg mp fp ln).2
      = [sinkDispatch l (render l.fmt_string ⟨lvl, msg, mp, fp, ln⟩)] := by
  constructor
  · unfold Minilog.log_upgrade_temp
    rw [if_pos h]
  · unfold Minilog.log_upgrade_temp Minilog.log_upgrade
    rw [if_pos h]
    simp only [if_pos h]
    simp [logMacro, Minilog.log, Minilog.enabled, hlog,
      Level.toNat_le_staticMax, Level.to_level_filter_toNat]

theorem log_upgrade_temp_escalates_witness :
    GlobalState.logger ⟨some ⟨strL "f.txt", strL "{level} - {msg}"⟩, .info⟩
        = some ⟨strL "f.txt", strL "{level} - {msg}"⟩ ∧
    LevelFilter.info.toNat < Level.trace.toNat ∧
    (Minilog.log_upgrade_temp ⟨some ⟨strL "f.txt", strL "{level} - {msg}"⟩, .info⟩
        .trace (strL "Trace!") none none none).1.maxLevel = LevelFilter.info ∧
    (Minilog.log_upgrade_temp ⟨some ⟨strL "f.txt", strL "{level} - {msg}"⟩, .info⟩
        .trace (strL "Trace!") none none none).2
      = [sinkDispatch ⟨strL "f.txt", strL "{level} - {msg}"⟩
          (render (strL "{level} - {msg}") ⟨.trace, strL "Trace!", none, none, none⟩)] :=
  ⟨rfl, by decide, log_upgrade_temp_escalates_emits_and_restores
    ⟨some ⟨strL "f.txt", strL "{level} - {msg}"⟩, .info⟩
    ⟨strL "f.txt", strL "{level} - {msg}"⟩ .trace (strL "Trace!") none none none
    rfl (by decide)⟩

/-- C6: `log_upgrade(level, msg)` raises the global maximum severity to
`level` when `level` is not currently enabled (and that raise is the state
after the call, so it persists), and it always emits exactly one rendered
line for the record. -/
theorem log_upgrade_raises_and_always_emits (g : GlobalState) (l : Minilog)
    (lvl : Level) (msg : Str) (mp fp : Option Str) (ln : Option Nat)
    (hlog : g.logger = some l) :
    (g.maxLevel.toNat < lvl.toNat →
      (Minilog.log_upgrade g lvl msg mp fp ln).1.maxLevel = lvl.to_level_filter) ∧
    (lvl.toNat ≤ g.maxLevel.toNat →
      (Minilog.log_upgrade g lvl msg mp fp ln).1 = g) ∧
    (Minilog.log_upgrade g lvl msg mp fp ln).2
      = [sinkDispatch l (render l.fmt_string ⟨lvl, msg, mp, fp, ln⟩)] := by
  by_cases h : g.maxLevel.toNat < lvl.toNat
  · refine ⟨fun _ => ?_, fun hc => absurd hc (by omega), ?_⟩
    · unfold Minilog.log_upgrade
      simp only [if_pos h]
    · unfold Minilog.log_upgrade
      simp only [if_pos h]
      simp [logMacro, Minilog.log, Minilog.enabled, hlog,
        Level.toNat_le_staticMax, Level.to_level_filter_toNat]
  · have hle : lvl.toNat ≤ g.maxLevel.toNat := Nat.le_of_not_lt h
    refine ⟨fun hc => absurd hc h, fun _ => ?_, ?_⟩
    · unfold Minilog.log_upgrade
      simp only [if_neg h]
    · unfold Minilog.log_upgrade
      simp only [if_neg h]
      simp [logMacro, Minilog.log, Minilog.enabled, hlog,
        Level.toNat_le_staticMax, hle]

theorem log_upgrade_raises_witness :
    GlobalState.logger ⟨some ⟨strL "f.txt", strL "{level} - {msg}"⟩, .info⟩
        = some ⟨strL "f.txt", strL "{level} - {msg}"⟩ ∧
    LevelFilter.info.toNat < Level.trace.toNat ∧
    (Minilog.log_upgrade ⟨some ⟨strL "f.txt", strL "{level} - {msg}"⟩, .info⟩
        .trace (strL "Trace!") none none none).1.maxLevel = Level.trace.to_level_filter ∧
    (Minilog.log_upgrade ⟨some ⟨strL "f.txt", strL "{level} - {msg}"⟩, .info⟩
        .trace (strL "Trace!") none none none).2
      = [sinkDispatch ⟨strL "f.txt", strL "{level} - {msg}"⟩
          (render (strL "{level} - {msg}") ⟨.trace, strL "Trace!", none, none, none⟩)] :=
  ⟨rfl, by decide,
    (log_upgrade_raises_and_always_emits
      ⟨some ⟨strL "f.txt", strL "{level} - {msg}"⟩, .info⟩
      ⟨strL "f.txt", strL "{level} - {msg}"⟩ .trace (strL "Trace!") none none none
      rfl).1 (by decide),
    (log_upgrade_raises_and_always_emits
      ⟨some ⟨strL "f.txt", strL "{level} - {msg}"⟩, .info⟩
      ⟨strL "f.txt", strL "{level} - {msg}"⟩ .trace (strL "Trace!") none none none
      rfl).2.2⟩

/-- C7: after a successful `init` (a logger is installed), any second `init`
or `init_default` fails with `AlreadyInitialized` and mutates no state: the
whole global state, hence the installed sink, template, and current maximum
severity, is exactly as before the failed call. -/
theorem second_init_fails_and_preserves_state (g : GlobalState) (cfg : Minilog)
    (loglevel : LevelFilter) (logfile_name fmt_string : Str)
    (hlog : g.logger = some cfg) :
    Minilog.init g loglevel logfile_name fmt_string
        = (g, .error .alreadyInitialized) ∧
    Minilog.init_default g = (g, .error .alreadyInitialized) := by
  constructor <;> simp [Minilog.init, Minilog.init_default, hlog]

theorem second_init_fails_witness :
    GlobalState.logger ⟨some ⟨strL "a.txt", strL "{msg}"⟩, .info⟩
        = some ⟨strL "a.txt", strL "{msg}"⟩ ∧
    Minilog.init ⟨some ⟨strL "a.txt", strL "{msg}"⟩, .info⟩ .debug
        (strL "b.txt") (strL "{level}")
      = (⟨some ⟨strL "a.txt", strL "{msg}"⟩, .info⟩, .error .alreadyInitialized) ∧
    Minilog.init_default ⟨some ⟨strL "a.txt", strL "{msg}"⟩, .info⟩
      = (⟨some ⟨strL "a.txt", strL "{msg}"⟩, .info⟩, .error .alreadyInitialized) :=
  ⟨rfl,
    (second_init_fails_and_preserves_state ⟨some ⟨strL "a.txt", strL "{msg}"⟩, .info⟩
      ⟨strL "a.txt", strL "{msg}"⟩ .debug (strL "b.txt") (strL "{level}") rfl).1,
    (second_init_fails_and_preserves_state ⟨some ⟨strL "a.txt", strL "{msg}"⟩, .info⟩
      ⟨strL "a.txt", strL "{msg}"⟩ .debug (strL "b.txt") (strL "{level}") rfl).2⟩

/-- C3: `log_or_panic(level, msg)` fails with the LevelTooLow condition iff
`level > maximum`; on failure nothing is emitted (the failure carries no
emissions), and otherwise it emits the record rendered with the configured
template, dispatched to the configured sink. -/
theorem log_or_panic_fails_iff_not_enabled (g : GlobalState) (l : Minilog)
    (lvl : Level) (msg : Str) (mp fp : Option Str) (ln : Option Nat)
    (hlog : g.logger = some l) :
    ((∃ e, Minilog.log_or_panic g lvl msg mp fp ln = .error e) ↔
      g.maxLevel.toNat < lvl.toNat) ∧
    (g.maxLevel.toNat < lvl.toNat →
      Minilog.log_or_panic g lvl msg mp fp ln = .error (.levelTooLow lvl)) ∧
    (lvl.toNat ≤ g.maxLevel.toNat →
      Minilog.log_or_panic g lvl msg mp fp ln
        = .ok [sinkDispatch l (render l.fmt_string ⟨lvl, msg, mp, fp, ln⟩)]) := by
  by_cases h : g.maxLevel.toNat < lvl.toNat
  · refine ⟨⟨fun _ => h, fun _ => ⟨.levelTooLow lvl, ?_⟩⟩, fun _ => ?_,
      fun hc => absurd hc (by omega)⟩ <;>
      simp [Minilog.log_or_panic, h]
  · have hle : lvl.toNat ≤ g.maxLevel.toNat := Nat.le_of_not_lt h
    refine ⟨⟨fun ⟨e, he⟩ => ?_, fun hc => absurd hc h⟩, fun hc => absurd hc h,
      fun _ => ?_⟩
    · rw [Minilog.log_or_panic, if_neg h] at he
      exact absurd he (by simp)
    · rw [Minilog.log_or_panic, if_neg h]
      simp [logMacro, Minilog.log, Minilog.enabled, hlog,
        Level.toNat_le_staticMax, hle]

theorem log_or_panic_witness :
    GlobalState.logger ⟨some ⟨strL "f.txt", strL "{level} - {msg}"⟩, .info⟩
        = some ⟨strL "f.txt", strL "{level} - {msg}"⟩ ∧
    LevelFilter.info.toNat < Level.trace.toNat ∧
    Minilog.log_or_panic ⟨some ⟨strL "f.txt", strL "{level} - {msg}"⟩, .info⟩
        .trace (strL "Trace!") none none none
      = .error (.levelTooLow .trace) ∧
    Level.error.toNat ≤ LevelFilter.info.toNat ∧
    Minilog.log_or_panic ⟨some ⟨strL "f.txt", strL "{level} - {msg}"⟩, .info⟩
        .error (strL "Error!") none none none
      = .ok [sinkDispatch ⟨strL "f.txt", strL "{level} - {msg}"⟩
          (render (strL "{level} - {msg}") ⟨.error, strL "Error!", none, none, none⟩)] :=
  ⟨rfl, by decide,
    (log_or_panic_fails_iff_not_enabled
      ⟨some ⟨strL "f.txt", strL "{level} - {msg}"⟩, .info⟩
      ⟨strL "f.txt", strL "{level} - {msg}"⟩ .trace (strL "Trace!") none none none
      rfl).2.1 (by decide),
    by decide,
    (log_or_panic_fails_iff_not_enabled
      ⟨some ⟨strL "f.txt", strL "{level} - {msg}"⟩, .info⟩
      ⟨strL "f.txt", strL "{level} - {msg}"⟩ .error (strL "Error!") none none none
      rfl).2.2 (by decide)⟩

/-- C4: enablement is exactly `severity <= maximum` in the total order
Off < Error < Warn < Info < Debug < Trace (modelled by the discriminants);
after setting the maximum to `b`, a record at severity `a <= b` is enabled
and is emitted, and a record at severity `c > b` is not enabled and is
suppressed. -/
theorem enabled_iff_le_and_gate (g : GlobalState) (l : Minilog) (a c : Level)
    (b : LevelFilter) (msg : Str) (mp fp : Option Str) (ln : Option Nat)
    (hlog : g.logger = some l) :
    (LevelFilter.off.toNat < LevelFilter.error.toNat ∧
     LevelFilter.error.toNat < LevelFilter.warn.toNat ∧
     LevelFilter.warn.toNat < LevelFilter.info.toNat ∧
     LevelFilter.info.toNat < LevelFilter.debug.toNat ∧
     LevelFilter.debug.toNat < LevelFilter.trace.toNat) ∧
    (∀ (m : Level) (f : LevelFilter), Minilog.enabled f m = true ↔ m.toNat ≤ f.toNat) ∧
    (a.toNat ≤ b.toNat →
      Minilog.enabled (Minilog.set_log_level g b).maxLevel a = true ∧
      logMacro (Minilog.set_log_level g b) a msg mp fp ln
        = [sinkDispatch l (render l.fmt_string ⟨a, msg, mp, fp, ln⟩)]) ∧
    (b.toNat < c.toNat →
      Minilog.enabled (Minilog.set_log_level g b).maxLevel c = false ∧
      logMacro (Minilog.set_log_level g b) c msg mp fp ln = []) := by
  refine ⟨by decide, fun m f => by simp [Minilog.enabled], fun ha => ⟨?_, ?_⟩,
    fun hc => ⟨?_, ?_⟩⟩
  · simp [Minilog.enabled, Minilog.set_log_level, ha]
  · simp [logMacro, Minilog.log, Minilog.enabled, Minilog.set_log_level, hlog,
      Level.toNat_le_staticMax, ha]
  · simp [Minilog.enabled, Minilog.set_log_level]
    omega
  · simp [logMacro, Minilog.set_log_level]
    omega

theorem enabled_iff_le_witness :
    GlobalState.logger ⟨some ⟨strL "f.txt", strL "{msg}"⟩, .off⟩
        = some ⟨strL "f.txt", strL "{msg}"⟩ ∧
    Level.warn.toNat ≤ LevelFilter.info.toNat ∧
    logMacro (Minilog.set_log_level ⟨some ⟨strL "f.txt", strL "{msg}"⟩, .off⟩ .info)
        .warn (strL "w") none none none
      = [sinkDispatch ⟨strL "f.txt", strL "{msg}"⟩
          (render (strL "{msg}") ⟨.warn, strL "w", none, none, none⟩)] ∧
    LevelFilter.info.toNat < Level.debug.toNat ∧
    logMacro (Minilog.set_log_level ⟨some ⟨strL "f.txt", strL "{msg}"⟩, .off⟩ .info)
        .debug (strL "d") none none none = [] :=
  ⟨rfl, by decide,
    ((enabled_iff_le_and_gate ⟨some ⟨strL "f.txt", strL "{msg}"⟩, .off⟩
      ⟨strL "f.txt", strL "{msg}"⟩ .warn .debug .info (strL "w") none none none
      rfl).2.2.1 (by decide)).2,
    by decide,
    ((enabled_iff_le_and_gate ⟨some ⟨strL "f.txt", strL "{msg}"⟩, .off⟩
      ⟨strL "f.txt", strL "{msg}"⟩ .warn .debug .info (strL "d") none none none
      rfl).2.2.2 (by decide)).2⟩

/-- C8: sink dispatch is decided by the descriptor string: the literal
`"stdout"` routes the rendered line plus one newline to standard output,
`"stderr"` to standard error, and any other string is treated as a file path
(append+create) receiving the line plus one newline; in the reserved-name
cases no file write event occurs at all. -/
theorem sink_dispatch_by_descriptor (self : Minilog) (maxLvl : LevelFilter)
    (r : LogRecord) (h : Minilog.enabled maxLvl r.level = true) :
    (self.logfile_name = strL "stdout" →
      Minilog.log self maxLvl r
        = [.toStdout (render self.fmt_string r ++ [newlineChar])] ∧
      ∀ p t, Emission.toFile p t ∉ Minilog.log self maxLvl r) ∧
    (self.logfile_name = strL "stderr" →
      Minilog.log self maxLvl r
        = [.toStderr (render self.fmt_string r ++ [newlineChar])] ∧
      ∀ p t, Emission.toFile p t ∉ Minilog.log self maxLvl r) ∧
    (self.logfile_name ≠ strL "stdout" → self.logfile_name ≠ strL "stderr" →
      Minilog.log self maxLvl r
        = [.toFile self.logfile_name (render self.fmt_string r ++ [newlineChar])]) := by
  refine ⟨fun h1 => ?_, fun h2 => ?_, fun h1 h2 => ?_⟩
  · have : Minilog.log self maxLvl r
        = [.toStdout (render self.fmt_string r ++ [newlineChar])] := by
      simp [Minilog.log, h, sinkDispatch, h1]
    exact ⟨this, by simp [this]⟩
  · have hne : self.logfile_name ≠ strL "stdout" := by
      rw [h2]; decide
    have : Minilog.log self maxLvl r
        = [.toStderr (render self.fmt_string r ++ [newlineChar])] := by
      simp [Minilog.log, h, sinkDispatch, hne, h2]
      decide
    exact ⟨this, by simp [this]⟩
  · simp [Minilog.log, h, sinkDispatch, h1, h2]

theorem sink_dispatch_witness :
    Minilog.enabled LevelFilter.info Level.info = true ∧
    Minilog.log ⟨strL "stdout", strL "{msg}"⟩ .info ⟨.info, strL "m", none, none, none⟩
      = [.toStdout (render (strL "{msg}") ⟨.info, strL "m", none, none, none⟩
          ++ [newlineChar])] ∧
    (∀ p t, Emission.toFile p t ∉
      Minilog.log ⟨strL "stdout", strL "{msg}"⟩ .info ⟨.info, strL "m", none, none, none⟩) ∧
    Minilog.log ⟨strL "out.txt", strL "{msg}"⟩ .info ⟨.info, strL "m", none, none, none⟩
      = [.toFile (strL "out.txt") (render (strL "{msg}") ⟨.info, strL "m", none, none, none⟩
          ++ [newlineChar])] :=
  ⟨by decide,
    ((sink_dispatch_by_descriptor ⟨strL "stdout", strL "{msg}"⟩ .info
      ⟨.info, strL "m", none, none, none⟩ (by decide)).1 rfl).1,
    ((sink_dispatch_by_descriptor ⟨strL "stdout", strL "{msg}"⟩ .info
      ⟨.info, strL "m", none, none, none⟩ (by decide)).1 rfl).2,
    (sink_dispatch_by_descriptor ⟨strL "out.txt", strL "{msg}"⟩ .info
      ⟨.info, strL "m", none, none, none⟩ (by decide)).2.2 (by decide) (by decide)⟩

/-- C9: a record with all optional metadata absent renders with the empty
string substituted for `{modpath}` and `{file}` and `0` for `{line}`:
the formatting chain receives exactly those defaults, and the result
coincides with rendering a record that carries an explicit empty module
path, empty file path, and line number 0. -/
theorem render_missing_metadata_defaults (fmt : Str) (lvl : Level) (msg : Str) :
    render fmt ⟨lvl, msg, none, none, none⟩
      = replacen1
          (replacen1
            (replacen1
              (replacen1
                (replacen1 fmt (strL "{level}") (levelStr lvl))
                (strL "{msg}") msg)
              (strL "{modpath}") (strL ""))
            (strL "{file}") (strL ""))
          (strL "{line}") (strL "0") ∧
    render fmt ⟨lvl, msg, none, none, none⟩
      = render fmt ⟨lvl, msg, some (strL ""), some (strL ""), some 0⟩ :=
  ⟨rfl, rfl⟩

/-- C10: substitution is applied to the accumulating string, so a
placeholder token occurring inside an already-substituted value is itself
replaced by a later step: with template `"{msg}"` and message text
`"{line}"` on a record whose line is 7, the output is `"7"`, not the
template with its first `{msg}` occurrence replaced by the message value
(which would be the literal `"{line}"`). -/
theorem render_rewrites_inside_substituted_values :
    render (strL "{msg}") ⟨.info, strL "{line}", none, none, some 7⟩ = strL "7" ∧
    replacen1 (strL "{msg}") (strL "{msg}") (strL "{line}") = strL "{line}" ∧
    strL "7" ≠ strL "{line}" :=
  ⟨by decide, by decide, by decide⟩

/-- C5: rendering is the five-step first-occurrence replacement chain in the
fixed order level, msg, modpath, file, line, where each step replaces only
the leftmost occurrence of its placeholder (any later occurrence stays as
literal text in the untouched suffix), a step whose placeholder does not
occur is a no-op, and all surrounding text is kept verbatim (in particular a
template with no placeholder renders as itself: the formatter appends no
newline). -/
theorem render_first_occurrence_only (fmt : Str) (r : LogRecord)
    (s pat rep : Str) :
    (render fmt r
      = replacen1
          (replacen1
            (replacen1
              (replacen1
                (replacen1 fmt (strL "{level}") (levelStr r.level))
                (strL "{msg}") r.msg)
              (strL "{modpath}") (r.module_path.getD []))
            (strL "{file}") (r.file.getD []))
          (strL "{line}") (natToStr (r.line.getD 0))) ∧
    (containsB pat s = false → replacen1 s pat rep = s) ∧
    (containsB pat s = true →
      ∃ pre post : Str, s = pre ++ pat ++ post ∧
        replacen1 s pat rep = pre ++ rep ++ post ∧
        ∀ p q : Str, s = p ++ pat ++ q → pre.length ≤ p.length) ∧
    (containsB (strL "{level}") fmt = false → containsB (strL "{msg}") fmt = false →
      containsB (strL "{modpath}") fmt = false → containsB (strL "{file}") fmt = false →
      containsB (strL "{line}") fmt = false → render fmt r = fmt) := by
  have hnoop : ∀ s2 pat2 rep2 : Str, containsB pat2 s2 = false →
      replacen1 s2 pat2 rep2 = s2 := by
    intro s2 pat2 rep2 hc
    unfold replacen1
    rw [(firstSplit_none_iff pat2 s2).mpr hc]
  refine ⟨rfl, hnoop s pat rep, fun hc => ?_, fun h1 h2 h3 h4 h5 => ?_⟩
  · cases hfs : firstSplit pat s with
    | none =>
      rw [firstSplit_none_iff pat s] at hfs
      rw [hfs] at hc
      exact absurd hc (by simp)
    | some pr =>
      obtain ⟨pre, post⟩ := pr
      obtain ⟨hsplit, hmin⟩ := firstSplit_some_spec pat s pre post hfs
      exact ⟨pre, post, hsplit, by rw [replacen1, hfs], hmin⟩
  · unfold render
    rw [hnoop _ _ _ h1, hnoop _ _ _ h2, hnoop _ _ _ h3, hnoop _ _ _ h4,
      hnoop _ _ _ h5]

theorem render_first_occurrence_only_witness :
    containsB (strL "{msg}") (strL "abc") = false ∧
    replacen1 (strL "abc") (strL "{msg}") (strL "V") = strL "abc" ∧
    containsB (strL "{level}") (strL "plain text") = false ∧
    containsB (strL "{msg}") (strL "plain text") = false ∧
    containsB (strL "{modpath}") (strL "plain text") = false ∧
    containsB (strL "{file}") (strL "plain text") = false ∧
    containsB (strL "{line}") (strL "plain text") = false ∧
    render (strL "plain text") ⟨.info, strL "m", none, none, none⟩
      = strL "plain text" :=
  ⟨by decide,
    (render_first_occurrence_only (strL "x") ⟨.info, [], none, none, none⟩
      (strL "abc") (strL "{msg}") (strL "V")).2.1 (by decide),
    by decide, by decide, by decide, by decide, by decide,
    (render_first_occurrence_only (strL "plain text")
      ⟨.info, strL "m", none, none, none⟩ [] [] []).2.2.2
      (by decide) (by decide) (by decide) (by decide) (by decide)⟩

example : replacen1 (strL "{level}: {msg}") (strL "{level}") (strL "ERROR")
    = strL "ERROR: {msg}" := by decide

example : replacen1 (strL "{msg} and {msg}") (strL "{msg}") (strL "A")
    = strL "A and {msg}" := by decide

example : replacen1 (strL "abc") (strL "{msg}") (strL "X") = strL "abc" := by decide

example : render (strL "{level} - {msg}")
    ⟨.trace, strL "Trace!", none, none, none⟩ = strL "TRACE - Trace!" := by decide

example : render (strL "{msg}") ⟨.info, strL "{line}", none, none, some 7⟩
    = strL "7" := by decide

example : natToStr 0 = strL "0" := by decide
